import Mathlib

/-!
Verification of the session/authentication and authorization subsystem of the
CSSECDV-Group5-PracEx2 web application.

The development shallowly embeds the TypeScript sources:
  * `src/lib/utils/session.ts` — token codec and session manager
    (`createSessionToken`, `verifySessionToken`, `verifySessionTokenEdge`,
    `renewSessionToken`, `getUserFromSession`);
  * the authorization gate (`handleAuthorizationError`, `requireRole`,
    `requirePermission`);
  * the credential verifier (`verifyPassword` with the dummy-hash contract);
  * the login route handler (`POST /api/login`, session-token variant);
  * the pre-routing `middleware` (edge admission filter).

Modelling conventions:
  * Unix timestamps (`Math.floor(Date.now() / 1000)`) are `Int`; the single
    `now` read inside each operation is an explicit argument.
  * JWT signing is symbolic: a `Token` carries its wire form (the list of
    dot-separated segments, each with the result of base64url+JSON decoding
    of that segment) together with `verified`, the outcome of
    `jwt.verify(token, JWT_SECRET)` viewed as an authenticated-encoding
    oracle: `some payload` exactly when the signature is valid under the
    server secret and `payload` is the signed content. The `jsonwebtoken`
    library itself rejects a token whose registered `exp` claim satisfies
    `clock >= exp` (TokenExpiredError), which `jwtVerify` reproduces.
  * `bcrypt.compare` is an oracle parameter; a comparison that may throw is
    an `Except Unit Bool` valued oracle.
  * Database-backed permission resolution is passed to the gate as an
    `Except Unit (List String)`: `.error` is a thrown lookup fault,
    `.ok perms` the resolved permission names.
  * JavaScript truthiness on strings (`""` and absent are falsy) and on
    numbers (`0` is falsy) is modelled explicitly where the source relies
    on it.
-/

/-- Environment-configured session parameters: `SESSION_TIMEOUT`
(default 1800 s) and `ACTIVITY_RENEWAL_THRESHOLD` (default 300 s). -/
structure SessionConfig where
  sessionTimeout : Int
  activityRenewalThreshold : Int
deriving DecidableEq, Repr

/-- The defaults parsed from the environment in `session.ts`. -/
def defaultSessionConfig : SessionConfig :=
  { sessionTimeout := 1800, activityRenewalThreshold := 300 }

/-- The identity fields passed to `createSessionToken`. -/
structure UserData where
  id : String
  username : String
  email : String
  displayName : String
deriving DecidableEq, Repr

/-- Optional client context recorded in the payload. -/
structure ClientContext where
  ipAddress : Option String
  userAgent : Option String
deriving DecidableEq, Repr

/-- `SessionData` of `session.ts`: the signed session token payload. -/
structure SessionData where
  id : String
  username : String
  email : String
  displayName : String
  sessionId : String
  iat : Int
  exp : Int
  lastActivity : Int
  ipAddress : Option String
  userAgent : Option String
deriving DecidableEq, Repr

/-- The JSON object obtained by base64url-decoding and `JSON.parse`-ing one
wire segment, as consumed by the edge verification path: only `exp` and
`lastActivity` influence control flow, both possibly absent; every other
key/value pair is kept uninterpreted in `fields`. -/
structure EdgePayload where
  exp : Option Int
  lastActivity : Option Int
  fields : List (String × String)
deriving DecidableEq, Repr

/-- One dot-separated segment of the token wire format. `decoded` is the
result of base64url-decoding the segment and `JSON.parse`-ing it:
`none` when that decoding throws or does not yield an object. -/
structure TokenSegment where
  decoded : Option EdgePayload
deriving DecidableEq, Repr

/-- A client-held token string, seen through the two views the code uses:
`parts` is `token.split "."`; `verified` is the outcome of
`jwt.verify(token, JWT_SECRET)` — `some p` iff the token is a genuine
signature of payload `p` under the server secret. A forged or corrupted
token has `verified = none` whatever its wire form looks like. -/
structure Token where
  parts : List TokenSegment
  verified : Option SessionData
deriving DecidableEq, Repr

/-- The edge (decode-only) view of a signed payload: what the payload
segment of a genuinely signed token decodes to. -/
def edgeViewOf (p : SessionData) : EdgePayload :=
  { exp := some p.exp
  , lastActivity := some p.lastActivity
  , fields := [("id", p.id), ("username", p.username), ("email", p.email),
               ("displayName", p.displayName), ("sessionId", p.sessionId)] }

/-- `jwt.sign(payload, JWT_SECRET)`: produces the three-segment wire form
(header, payload, signature; only the payload segment decodes to a
session-shaped object) and a `verified` view equal to the signed payload. -/
def signToken (p : SessionData) : Token :=
  { parts := [⟨none⟩, ⟨some (edgeViewOf p)⟩, ⟨none⟩]
  , verified := some p }

/-- `jwt.verify(token, JWT_SECRET)` at clock `now`: `none` (a thrown
`JsonWebTokenError`/`TokenExpiredError`) when the signature is invalid or
the registered `exp` claim satisfies `now >= exp`; otherwise the payload.
(`jsonwebtoken` checks `clockTimestamp >= payload.exp` whenever `exp` is
present, and the `SessionData` payload always carries `exp`.) -/
def jwtVerify (t : Token) (now : Int) : Option SessionData :=
  match t.verified with
  | none => none
  | some p => if now ≥ p.exp then none else some p

/-- Result shape of both verification paths in `session.ts`. -/
structure VerifyResult (α : Type) where
  valid : Bool
  data : Option α
  needsRenewal : Bool
  error : Option String
deriving DecidableEq, Repr

/-- `createSessionToken`'s payload: `iat = now`, `exp = now + timeoutSeconds`,
`lastActivity = now`, the CSPRNG session id `sid`, optional context. -/
def createSessionPayload (userData : UserData) (context : Option ClientContext)
    (timeoutSeconds : Int) (now : Int) (sid : String) : SessionData :=
  { id := userData.id
  , username := userData.username
  , email := userData.email
  , displayName := userData.displayName
  , sessionId := sid
  , iat := now
  , exp := now + timeoutSeconds
  , lastActivity := now
  , ipAddress := context.bind (·.ipAddress)
  , userAgent := context.bind (·.userAgent) }

/-- `createSessionToken` of `session.ts`. The CSPRNG output
(`generateSessionId()`) and the clock read are explicit arguments. -/
def createSessionToken (userData : UserData) (context : Option ClientContext)
    (timeoutSeconds : Int) (now : Int) (sid : String) : Token :=
  signToken (createSessionPayload userData context timeoutSeconds now sid)

/-- `verifySessionToken` of `session.ts`: full cryptographic verification.
A thrown `jwt.verify` error is caught and reported as `"Invalid token"`;
an `exp` in the past (JavaScript truthiness: only when `exp ≠ 0`) is
reported as `"Token expired"`; otherwise the token is valid and
`needsRenewal = (now - lastActivity) ≥ ACTIVITY_RENEWAL_THRESHOLD`. -/
def verifySessionToken (cfg : SessionConfig) (t : Token) (now : Int) :
    VerifyResult SessionData :=
  match jwtVerify t now with
  | none => { valid := false, data := none, needsRenewal := false,
              error := some "Invalid token" }
  | some payload =>
    if payload.exp ≠ 0 ∧ now ≥ payload.exp then
      { valid := false, data := none, needsRenewal := false,
        error := some "Token expired" }
    else
      { valid := true, data := some payload,
        needsRenewal := now - payload.lastActivity ≥ cfg.activityRenewalThreshold,
        error := none }

/-- The body of `verifySessionTokenEdge` once the payload segment is in
hand: decode (a failed `JSON.parse` throws and is caught as
`"Invalid token"`), then the truthy-`exp` expiry check, then the renewal
computation (`now - payload.lastActivity` is `NaN` when `lastActivity` is
absent, and `NaN >= threshold` is `false`). -/
def edgeDecodeSegment (cfg : SessionConfig) (seg : TokenSegment) (now : Int) :
    VerifyResult EdgePayload :=
  match seg.decoded with
  | none => { valid := false, data := none, needsRenewal := false,
              error := some "Invalid token" }
  | some payload =>
    let okResult : VerifyResult EdgePayload :=
      { valid := true, data := some payload,
        needsRenewal :=
          (match payload.lastActivity with
           | some la => now - la ≥ cfg.activityRenewalThreshold
           | none => false)
      , error := none }
    match payload.exp with
    | some e =>
      if e ≠ 0 ∧ now ≥ e then
        { valid := false, data := none, needsRenewal := false,
          error := some "Token expired" }
      else okResult
    | none => okResult

/-- `verifySessionTokenEdge` of `session.ts`: the decode-only path for the
Edge Runtime. It splits the token on `"."`, rejects anything but exactly
three segments as `"Invalid token format"`, base64url-decodes and
`JSON.parse`s the middle segment, and checks expiry/renewal on the decoded
object. It never consults the signature segment. -/
def verifySessionTokenEdge (cfg : SessionConfig) (t : Token) (now : Int) :
    VerifyResult EdgePayload :=
  match t.parts with
  | [_, payloadSeg, _] => edgeDecodeSegment cfg payloadSeg now
  | _ => { valid := false, data := none, needsRenewal := false,
           error := some "Invalid token format" }

/-- `renewSessionToken` of `session.ts`: `null` on an invalid token, the
original token when no renewal is needed, otherwise a freshly signed token
with the same identity fields and session id and
`iat = now`, `exp = now + SESSION_TIMEOUT`, `lastActivity = now`. -/
def renewSessionToken (cfg : SessionConfig) (t : Token) (now : Int) :
    Option Token :=
  let result := verifySessionToken cfg t now
  if ¬ result.valid then none
  else
    match result.data with
    | none => none
    | some p =>
      if ¬ result.needsRenewal then some t
      else some (signToken { p with iat := now,
                                    exp := now + cfg.sessionTimeout,
                                    lastActivity := now })

/-- The identity projection returned by `getUserFromSession`. -/
structure SessionUser where
  id : String
  username : String
  email : String
  displayName : String
  sessionId : String
deriving DecidableEq, Repr

/-- `getUserFromSession` of `session.ts`. -/
def getUserFromSession (cfg : SessionConfig) (t : Token) (now : Int) :
    Option SessionUser :=
  let result := verifySessionToken cfg t now
  if ¬ result.valid then none
  else
    match result.data with
    | none => none
    | some d =>
      some { id := d.id, username := d.username, email := d.email,
             displayName := d.displayName, sessionId := d.sessionId }

/-- Modelled from the spec: the global logout watermark. The logout route
(`src/app/api/logout/route.ts`) imports `setGlobalLogoutTimestamp` from
`@/lib/utils/session`, but the `session.ts` variant that defines it (and
consults the watermark during verification) is absent from the sources.
Per spec §3/§4.3 the watermark is a process-wide timestamp, absent by
default, set to the current instant on a "log out everywhere" action. -/
def setGlobalLogoutWatermark (instant : Int) : Option Int :=
  some instant

/-- Modelled from the spec: session verification in the presence of the
global logout watermark. Spec §4.3: verification is "invalid if signature
fails, if expired, or if `iat < globalLogoutWatermark`"; otherwise it
behaves as `verifySessionToken`. -/
def verifySessionTokenWm (cfg : SessionConfig) (watermark : Option Int)
    (t : Token) (now : Int) : VerifyResult SessionData :=
  match jwtVerify t now with
  | none => { valid := false, data := none, needsRenewal := false,
              error := some "Invalid token" }
  | some payload =>
    if payload.exp ≠ 0 ∧ now ≥ payload.exp then
      { valid := false, data := none, needsRenewal := false,
        error := some "Token expired" }
    else
      match watermark with
      | some w =>
        if payload.iat < w then
          { valid := false, data := none, needsRenewal := false,
            error := some "Session invalidated" }
        else
          { valid := true, data := some payload,
            needsRenewal :=
              now - payload.lastActivity ≥ cfg.activityRenewalThreshold,
            error := none }
      | none =>
        { valid := true, data := some payload,
          needsRenewal :=
            now - payload.lastActivity ≥ cfg.activityRenewalThreshold,
          error := none }

/-- JavaScript `String.prototype.startsWith`, over the character
sequence of the two strings (paths here are ASCII, where the UTF-16
code-unit view and the character view coincide). -/
def jsStartsWith (s pre : String) : Bool :=
  pre.data.isPrefixOf s.data

/-- The `protectedRoutes` list of the pre-routing middleware. -/
def protectedRoutes : List String :=
  ["/admin", "/dashboard", "/profile", "/users"]

/-- Outcome of the pre-routing middleware: admit the request
(`next`, possibly attaching a renewed session cookie) or redirect to
`/login` (possibly clearing the session cookie first). -/
inductive MiddlewareOutcome where
  | next : MiddlewareOutcome
  | nextWithCookie : Token → MiddlewareOutcome
  | redirectLogin : MiddlewareOutcome
  | redirectLoginClearCookie : MiddlewareOutcome
deriving DecidableEq, Repr

/-- The `middleware` function (edge admission filter). `cookieToken` is the
`id` cookie (`none` both when the cookie is missing and when its value is
the empty string, which is falsy). On a protected path it relies solely on
`verifySessionTokenEdge`; when renewal is needed it tries
`renewSessionToken` and admits the request whether or not that succeeds. -/
def middleware (cfg : SessionConfig) (pathname : String)
    (cookieToken : Option Token) (now : Int) : MiddlewareOutcome :=
  let isProtectedRoute := protectedRoutes.any (fun route => jsStartsWith pathname route)
  if ¬ isProtectedRoute then .next
  else
    match cookieToken with
    | none => .redirectLogin
    | some token =>
      let result := verifySessionTokenEdge cfg token now
      if ¬ result.valid then .redirectLoginClearCookie
      else if result.needsRenewal then
        match renewSessionToken cfg token now with
        | some renewedToken => .nextWithCookie renewedToken
        | none => .next
      else .next

/-- The error classes of the authorization gate. -/
inductive AuthErrorType where
  | unauthenticated : AuthErrorType
  | unauthorized : AuthErrorType
  | serverError : AuthErrorType
deriving DecidableEq, Repr

/-- An HTTP error response body produced by `handleAuthorizationError`. -/
structure ErrorResponse where
  status : Nat
  message : String
deriving DecidableEq, Repr

/-- `handleAuthorizationError`: the standardized error responses
(`unauthenticated` ↦ 401, `unauthorized` ↦ 403, `server_error` ↦ 500). -/
def handleAuthorizationError : AuthErrorType → ErrorResponse
  | .unauthenticated => { status := 401, message := "Authentication required" }
  | .unauthorized => { status := 403, message := "Access denied" }
  | .serverError => { status := 500, message := "Internal server error" }

/-- The `{ user, error? }` result both gate checks return. -/
structure GateResult where
  user : Option SessionUser
  error : Option ErrorResponse
deriving DecidableEq, Repr

/-- The role list `requireRole` derives from the resolved permissions:
`"admin"` when `"admin_access"` is among them, then `"manager"` when
`"manage_users"` is, then always `"user"`. -/
def deriveUserRoles (userPermissions : List String) : List String :=
  (if userPermissions.contains "admin_access" then ["admin"] else []) ++
  (if userPermissions.contains "manage_users" then ["manager"] else []) ++
  ["user"]

/-- `requireRole(allowedRoles)` applied to a token. The permission
resolution (`getUserPermissions(user.id)`, a database join) is the
`permLookup` argument; a thrown lookup fault (`.error`) is caught by the
gate's `try/catch` and converted to the `server_error` response. -/
def requireRole (allowedRoles : List String) (cfg : SessionConfig)
    (t : Token) (now : Int) (permLookup : Except Unit (List String)) :
    GateResult :=
  match getUserFromSession cfg t now with
  | none => { user := none, error := some (handleAuthorizationError .unauthenticated) }
  | some user =>
    match permLookup with
    | .error _ => { user := none, error := some (handleAuthorizationError .serverError) }
    | .ok userPermissions =>
      let userRoles := deriveUserRoles userPermissions
      if userRoles.any (fun role => allowedRoles.contains role) then
        { user := some user, error := none }
      else
        { user := some user, error := some (handleAuthorizationError .unauthorized) }

/-- `requirePermission(requiredPermission)` applied to a token.
`userHasPermission` is membership of the required permission in the
resolved permission list; a thrown lookup fault is caught and converted
to the `server_error` response. -/
def requirePermission (requiredPermission : String) (cfg : SessionConfig)
    (t : Token) (now : Int) (permLookup : Except Unit (List String)) :
    GateResult :=
  match getUserFromSession cfg t now with
  | none => { user := none, error := some (handleAuthorizationError .unauthenticated) }
  | some user =>
    match permLookup with
    | .error _ => { user := none, error := some (handleAuthorizationError .serverError) }
    | .ok userPermissions =>
      if userPermissions.contains requiredPermission then
        { user := some user, error := none }
      else
        { user := some user, error := some (handleAuthorizationError .unauthorized) }

/-- JavaScript string truthiness on an optional string: absent and `""`
are falsy. -/
def jsFalsyStr (s : Option String) : Bool :=
  s.getD "" = ""

/-- The fixed dummy bcrypt hash of `password_auth.ts` (a real hash of
"PasswordTest123"), compared against when no stored hash exists. -/
def DUMMY_HASH : String :=
  "$2b$12$AJtoqNl/gmopQXGwuzF9iu8h1EYNOgiDbUSDSNEJrMHlN45Ea5dCy"

/-- Observable outcome of `verifyPassword`: the boolean result together
with the hash actually handed to `bcrypt.compare` (the comparison is
performed unconditionally, before the result is decided). -/
structure VerifyPasswordResult where
  result : Bool
  comparedHash : String
deriving DecidableEq, Repr

/-- `verifyPassword` of `password_auth.ts`. `compare` is the
`bcrypt.compare` oracle, which may throw (`.error`). The stored hash is
`none` for JavaScript `null`; `hash || DUMMY_HASH` makes the absent and
empty-string cases fall back to the dummy hash, `hash ? isValid : false`
forces `false` whenever the stored hash was falsy, and any thrown
exception is caught and yields `false`. -/
def verifyPassword (compare : String → String → Except Unit Bool)
    (password : String) (hash : Option String) : VerifyPasswordResult :=
  let hashToCompare := if jsFalsyStr hash then DUMMY_HASH else hash.getD ""
  match compare password hashToCompare with
  | .error _ => { result := false, comparedHash := hashToCompare }
  | .ok isValid =>
    { result := if jsFalsyStr hash then false else isValid
    , comparedHash := hashToCompare }

/-- The user record selected by the login route
(`id, username, email, display_name, password_hash`). -/
structure DbUser where
  id : String
  username : String
  email : String
  display_name : Option String
  password_hash : String
deriving DecidableEq, Repr

/-- The parsed JSON body of a login request; each field is absent or a
string (JavaScript truthiness applies). -/
structure LoginRequestBody where
  usernameOrEmail : Option String
  password : Option String
deriving DecidableEq, Repr

/-- The observable response of the login route: HTTP status, the `error`
JSON field, the `message` JSON field, and the session token set as a
cookie on success. -/
structure LoginResponse where
  status : Nat
  error : Option String
  message : Option String
  sessionCookie : Option Token
deriving DecidableEq, Repr

/-- `POST /api/login` (the session-token variant of the route handler).
`queryResult` is the user-store lookup: `.error` a database error, `.ok
none` no matching row, `.ok (some user)` the found record — the handler
collapses the first two into the same generic 401. `compare` is
`bcrypt.compare` (the route calls it directly and only after a user row
was found). The second component of the result counts the bcrypt
comparisons performed while handling the request, the dominant
latency-relevant observable. -/
def loginPOST (body : LoginRequestBody)
    (queryResult : Except Unit (Option DbUser))
    (compare : String → String → Bool)
    (now : Int) (sid : String) : LoginResponse × Nat :=
  if jsFalsyStr body.usernameOrEmail ∨ jsFalsyStr body.password then
    ({ status := 400, error := some "Username/email and password are required",
       message := none, sessionCookie := none }, 0)
  else
    match queryResult with
    | .error _ =>
      ({ status := 401, error := some "Invalid username/email or password",
         message := none, sessionCookie := none }, 0)
    | .ok none =>
      ({ status := 401, error := some "Invalid username/email or password",
         message := none, sessionCookie := none }, 0)
    | .ok (some user) =>
      if ¬ compare (body.password.getD "") user.password_hash then
        ({ status := 401, error := some "Invalid username/email or password",
           message := none, sessionCookie := none }, 1)
      else
        let sessionToken := createSessionToken
          { id := user.id
          , username := user.username
          , email := user.email
          , displayName := if jsFalsyStr user.display_name then user.username
                           else user.display_name.getD "" }
          none defaultSessionConfig.sessionTimeout now sid
        ({ status := 200, error := none, message := some "Login successful",
           sessionCookie := some sessionToken }, 1)

/-- A verification result is either invalid, or carries exactly the shape
produced by the valid branch of `verifySessionToken`. -/
theorem verifySessionToken_shape (cfg : SessionConfig) (t : Token) (now : Int) :
    (verifySessionToken cfg t now).valid = false ∨
    ∃ p, jwtVerify t now = some p ∧
      verifySessionToken cfg t now =
        { valid := true, data := some p,
          needsRenewal := decide (now - p.lastActivity ≥ cfg.activityRenewalThreshold),
          error := none } := by
  unfold verifySessionToken
  cases hj : jwtVerify t now with
  | none => left; rfl
  | some p =>
    by_cases h : p.exp ≠ 0 ∧ now ≥ p.exp
    · left; simp [h]
    · right; exact ⟨p, rfl, by simp [h]⟩

/-- Claim C6: verifying a freshly created session token with no time
elapsed succeeds with `valid = true` and `needsRenewal = false` (the
payload is stamped with `iat = exp - timeout = lastActivity = now`),
provided the session timeout and the activity-renewal threshold are
positive, as their defaults (1800 s, 300 s) are. -/
theorem C6_create_verify_roundtrip (u : UserData) (ctx : Option ClientContext)
    (now : Int) (sid : String) (cfg : SessionConfig)
    (hT : 0 < cfg.sessionTimeout) (hA : 0 < cfg.activityRenewalThreshold) :
    verifySessionToken cfg
        (createSessionToken u ctx cfg.sessionTimeout now sid) now
      = { valid := true
        , data := some (createSessionPayload u ctx cfg.sessionTimeout now sid)
        , needsRenewal := false
        , error := none } := by
  have h1 : ¬ now ≥ now + cfg.sessionTimeout := by omega
  have h2 : ¬ (now - now ≥ cfg.activityRenewalThreshold) := by omega
  simp [verifySessionToken, createSessionToken, signToken, jwtVerify,
        createSessionPayload, h1, h2]
  omega

/-- Witness for C6 at the default configuration. -/
theorem C6_roundtrip_witness :
    verifySessionToken defaultSessionConfig
        (createSessionToken ⟨"1", "alice", "a@example.com", "Alice"⟩ none
          defaultSessionConfig.sessionTimeout 1000 "sid1") 1000
      = { valid := true
        , data := some (createSessionPayload ⟨"1", "alice", "a@example.com", "Alice"⟩
            none defaultSessionConfig.sessionTimeout 1000 "sid1")
        , needsRenewal := false
        , error := none } :=
  C6_create_verify_roundtrip ⟨"1", "alice", "a@example.com", "Alice"⟩ none
    1000 "sid1" defaultSessionConfig (by decide) (by decide)

/-- Claim C7: a token whose `exp` satisfies `now ≥ exp` at verification
time is reported invalid with `needsRenewal = false`, even when the
signature (and hence every payload field) is correct; the boundary
`now = exp` already counts as expired. -/
theorem C7_expired_token_invalid (cfg : SessionConfig) (t : Token)
    (p : SessionData) (now : Int)
    (hver : t.verified = some p) (hexp : now ≥ p.exp) :
    (verifySessionToken cfg t now).valid = false ∧
    (verifySessionToken cfg t now).needsRenewal = false ∧
    (verifySessionToken cfg t now).data = none := by
  simp [verifySessionToken, jwtVerify, hver, hexp]

/-- Witness for C7: a correctly signed token with `exp = 50` verified at
the boundary instant `now = 50`. -/
theorem C7_expired_witness :
    (verifySessionToken defaultSessionConfig
      (signToken ⟨"1", "alice", "a@example.com", "Alice", "sid1", 0, 50, 0,
        none, none⟩) 50).valid = false :=
  (C7_expired_token_invalid defaultSessionConfig
    (signToken ⟨"1", "alice", "a@example.com", "Alice", "sid1", 0, 50, 0,
      none, none⟩)
    ⟨"1", "alice", "a@example.com", "Alice", "sid1", 0, 50, 0, none, none⟩
    50 rfl (by decide)).1

/-- Claim C8: when a token verifies valid with `needsRenewal = false`,
`renewSessionToken` returns the input token itself unchanged, so a second
call within the activity threshold yields the byte-identical token; when
it verifies valid with `needsRenewal = true`, the result is a freshly
signed token preserving the identity fields and the session id, with
`iat = now`, `exp = now + sessionTimeout`, `lastActivity = now`. -/
theorem C8_renew_idempotent (cfg : SessionConfig) (t : Token) (now : Int) :
    ((verifySessionToken cfg t now).valid = true →
     (verifySessionToken cfg t now).needsRenewal = false →
     renewSessionToken cfg t now = some t ∧
     (renewSessionToken cfg t now).bind
       (fun t2 => renewSessionToken cfg t2 now) = some t) ∧
    (∀ p, (verifySessionToken cfg t now).valid = true →
     (verifySessionToken cfg t now).needsRenewal = true →
     (verifySessionToken cfg t now).data = some p →
     renewSessionToken cfg t now
       = some (signToken { p with iat := now
                                , exp := now + cfg.sessionTimeout
                                , lastActivity := now })) := by
  constructor
  · intro hvalid hnoren
    rcases verifySessionToken_shape cfg t now with hbad | ⟨p, _, heq⟩
    · rw [hvalid] at hbad; cases hbad
    · have hr : renewSessionToken cfg t now = some t := by
        rw [heq] at hnoren
        simp at hnoren
        simp [renewSessionToken, heq, hnoren]
      refine ⟨hr, ?_⟩
      rw [hr]
      exact hr
  · intro p hvalid hren hdata
    rcases verifySessionToken_shape cfg t now with hbad | ⟨q, _, heq⟩
    · rw [hvalid] at hbad; cases hbad
    · have hq : q = p := by
        rw [heq] at hdata
        simpa using hdata
      subst hq
      rw [heq] at hren
      simp at hren
      simp [renewSessionToken, heq, hren]

/-- Witness for C8: both branches exercised at concrete tokens — a fresh
token needs no renewal and is returned unchanged; a stale token (last
activity 400 s ago) is re-signed with renewed timing fields. -/
theorem C8_renew_witness :
    renewSessionToken defaultSessionConfig
      (signToken ⟨"1", "alice", "a@example.com", "Alice", "sid1", 1000, 2800,
        1000, none, none⟩) 1000
      = some (signToken ⟨"1", "alice", "a@example.com", "Alice", "sid1", 1000,
          2800, 1000, none, none⟩) ∧
    renewSessionToken defaultSessionConfig
      (signToken ⟨"1", "alice", "a@example.com", "Alice", "sid1", 1000, 2800,
        1000, none, none⟩) 1400
      = some (signToken ⟨"1", "alice", "a@example.com", "Alice", "sid1", 1400,
          3200, 1400, none, none⟩) :=
  ⟨((C8_renew_idempotent defaultSessionConfig
      (signToken ⟨"1", "alice", "a@example.com", "Alice", "sid1", 1000, 2800,
        1000, none, none⟩) 1000).1 (by decide) (by decide)).1,
   (C8_renew_idempotent defaultSessionConfig
      (signToken ⟨"1", "alice", "a@example.com", "Alice", "sid1", 1000, 2800,
        1000, none, none⟩) 1400).2
     ⟨"1", "alice", "a@example.com", "Alice", "sid1", 1000, 2800, 1000, none,
       none⟩ (by decide) (by decide) (by decide)⟩

/-- Claim C10: a token that does not split into exactly three segments, or
whose payload segment does not decode to JSON, is classified as malformed
(`"Invalid token format"` / `"Invalid token"`), never as expired; the
`"Token expired"` error arises only from a well-formed token whose decoded
payload carries a truthy `exp` with `now ≥ exp`. On the full-verification
path, any token `jwt.verify` rejects is likewise reported as
`"Invalid token"`. -/
theorem C10_malformed_never_expired (cfg : SessionConfig) (t : Token) (now : Int) :
    (t.parts.length ≠ 3 →
      verifySessionTokenEdge cfg t now =
        { valid := false, data := none, needsRenewal := false,
          error := some "Invalid token format" }) ∧
    (∀ a b c, t.parts = [a, b, c] → b.decoded = none →
      verifySessionTokenEdge cfg t now =
        { valid := false, data := none, needsRenewal := false,
          error := some "Invalid token" }) ∧
    ((verifySessionTokenEdge cfg t now).error = some "Token expired" →
      ∃ a b c payload e, t.parts = [a, b, c] ∧ b.decoded = some payload ∧
        payload.exp = some e ∧ e ≠ 0 ∧ now ≥ e) ∧
    (t.verified = none →
      verifySessionToken cfg t now =
        { valid := false, data := none, needsRenewal := false,
          error := some "Invalid token" }) := by
  refine ⟨?_, ?_, ?_, ?_⟩
  · intro hlen
    rcases hp : t.parts with _ | ⟨a, _ | ⟨b, _ | ⟨c, _ | ⟨d, tl⟩⟩⟩⟩ <;>
      simp [verifySessionTokenEdge, hp]
    simp [hp] at hlen
  · intro a b c hp hb
    simp [verifySessionTokenEdge, hp, edgeDecodeSegment, hb]
  · intro herr
    rcases hp : t.parts with _ | ⟨a, _ | ⟨b, _ | ⟨c, _ | ⟨d, tl⟩⟩⟩⟩ <;>
      simp [verifySessionTokenEdge, hp] at herr
    · cases hb : b.decoded with
      | none => simp [edgeDecodeSegment, hb] at herr
      | some payload =>
        cases he : payload.exp with
        | none => simp [edgeDecodeSegment, hb, he] at herr
        | some e =>
          by_cases hcond : e ≠ 0 ∧ now ≥ e
          · exact ⟨a, b, c, payload, e, rfl, hb, he, hcond.1, hcond.2⟩
          · simp [edgeDecodeSegment, hb, he, hcond] at herr
  · intro hver
    simp [verifySessionToken, jwtVerify, hver]

/-- Witness for C10: a two-segment token is malformed; a three-segment
token with an undecodable payload is an invalid token, not an expired
one. -/
theorem C10_malformed_witness :
    verifySessionTokenEdge defaultSessionConfig
      { parts := [⟨none⟩, ⟨none⟩], verified := none } 100
      = { valid := false, data := none, needsRenewal := false,
          error := some "Invalid token format" } ∧
    verifySessionTokenEdge defaultSessionConfig
      { parts := [⟨none⟩, ⟨none⟩, ⟨none⟩], verified := none } 100
      = { valid := false, data := none, needsRenewal := false,
          error := some "Invalid token" } :=
  ⟨(C10_malformed_never_expired defaultSessionConfig
      { parts := [⟨none⟩, ⟨none⟩], verified := none } 100).1 (by decide),
   (C10_malformed_never_expired defaultSessionConfig
      { parts := [⟨none⟩, ⟨none⟩, ⟨none⟩], verified := none } 100).2.1
     ⟨none⟩ ⟨none⟩ ⟨none⟩ rfl rfl⟩

/-- Claim C3: for any three-segment token whose middle segment decodes to a
JSON object with `exp` absent or strictly later than `now`,
`verifySessionTokenEdge` reports `valid = true` with that object as the
session data — the `verified` (signature) view of the token is completely
unconstrained — and the pre-routing middleware admits a request to a
protected path carrying such a token. -/
theorem C3_edge_ignores_signature (cfg : SessionConfig) (pathname : String)
    (t : Token) (now : Int) (a b c : TokenSegment) (payload : EdgePayload)
    (hparts : t.parts = [a, b, c]) (hb : b.decoded = some payload)
    (hexp : payload.exp = none ∨ ∃ e, payload.exp = some e ∧ now < e)
    (hprot : protectedRoutes.any (fun route => jsStartsWith pathname route) = true) :
    (verifySessionTokenEdge cfg t now).valid = true ∧
    (verifySessionTokenEdge cfg t now).data = some payload ∧
    (middleware cfg pathname (some t) now = .next ∨
     ∃ rt, middleware cfg pathname (some t) now = .nextWithCookie rt) := by
  have hedge : (verifySessionTokenEdge cfg t now).valid = true ∧
      (verifySessionTokenEdge cfg t now).data = some payload := by
    rcases hexp with he | ⟨e, he, hlt⟩
    · simp [verifySessionTokenEdge, hparts, edgeDecodeSegment, hb, he]
    · have hcond : ¬ (e ≠ 0 ∧ now ≥ e) := by omega
      simp [verifySessionTokenEdge, hparts, edgeDecodeSegment, hb, he, hcond]
  refine ⟨hedge.1, hedge.2, ?_⟩
  unfold middleware
  simp only [hprot]
  simp only [not_true, if_false, ite_false, hedge.1]
  by_cases hren : (verifySessionTokenEdge cfg t now).needsRenewal = true
  · simp [hedge.1, hren]
    cases hr : renewSessionToken cfg t now with
    | none => left; rfl
    | some rt => right; exact ⟨rt, rfl⟩
  · simp at hren
    simp [hedge.1, hren]

/-- Witness for C3: a token with an arbitrary (unverifiable) signature view
whose payload segment decodes to an object without `exp`, presented on the
protected path `/dashboard`, is admitted by the middleware. -/
theorem C3_edge_witness :
    (verifySessionTokenEdge defaultSessionConfig
      { parts := [⟨none⟩, ⟨some ⟨none, none, []⟩⟩, ⟨none⟩], verified := none }
      1000).valid = true ∧
    (middleware defaultSessionConfig "/dashboard"
      (some { parts := [⟨none⟩, ⟨some ⟨none, none, []⟩⟩, ⟨none⟩],
              verified := none }) 1000 = .next ∨
     ∃ rt, middleware defaultSessionConfig "/dashboard"
      (some { parts := [⟨none⟩, ⟨some ⟨none, none, []⟩⟩, ⟨none⟩],
              verified := none }) 1000 = .nextWithCookie rt) :=
  ⟨(C3_edge_ignores_signature defaultSessionConfig "/dashboard"
      { parts := [⟨none⟩, ⟨some ⟨none, none, []⟩⟩, ⟨none⟩], verified := none }
      1000 ⟨none⟩ ⟨some ⟨none, none, []⟩⟩ ⟨none⟩ ⟨none, none, []⟩ rfl rfl
      (Or.inl rfl) (by decide)).1,
   (C3_edge_ignores_signature defaultSessionConfig "/dashboard"
      { parts := [⟨none⟩, ⟨some ⟨none, none, []⟩⟩, ⟨none⟩], verified := none }
      1000 ⟨none⟩ ⟨some ⟨none, none, []⟩⟩ ⟨none⟩ ⟨none, none, []⟩ rfl rfl
      (Or.inl rfl) (by decide)).2.2⟩

/-- Claim C1: once the global logout watermark is set to instant `w`, every
token issued before `w` (`iat < w`) is rejected by watermark-aware session
verification, even though its signature is valid and its own `exp` has not
passed. -/
theorem C1_watermark_rejects_old_tokens (cfg : SessionConfig) (t : Token)
    (p : SessionData) (now w : Int)
    (hver : t.verified = some p) (hexp : now < p.exp) (hiat : p.iat < w) :
    (verifySessionTokenWm cfg (setGlobalLogoutWatermark w) t now).valid
      = false := by
  have h1 : ¬ now ≥ p.exp := by omega
  simp [verifySessionTokenWm, setGlobalLogoutWatermark, jwtVerify, hver, h1,
        hiat]

/-- Witness for C1: a valid token issued at `iat = 100` with `exp = 5000`
is rejected at `now = 200` after the watermark is set to `150`. -/
theorem C1_watermark_witness :
    (verifySessionTokenWm defaultSessionConfig (setGlobalLogoutWatermark 150)
      (signToken ⟨"1", "alice", "a@example.com", "Alice", "sid1", 100, 5000,
        100, none, none⟩) 200).valid = false :=
  C1_watermark_rejects_old_tokens defaultSessionConfig
    (signToken ⟨"1", "alice", "a@example.com", "Alice", "sid1", 100, 5000,
      100, none, none⟩)
    ⟨"1", "alice", "a@example.com", "Alice", "sid1", 100, 5000, 100, none,
      none⟩ 200 150 rfl (by decide) (by decide)

/-- Claim C4: each authorization-gate check returns exactly one of four
outcomes — success (`error = none` with a user), 401 unauthenticated, 403
unauthorized, or 500 server error — and a fault thrown during permission
resolution is caught inside the gate and converted to the 500 outcome
(the gate is a total function: nothing propagates to the caller). -/
theorem C4_gate_four_outcomes (cfg : SessionConfig) (t : Token) (now : Int)
    (permLookup : Except Unit (List String)) (allowedRoles : List String)
    (requiredPermission : String) :
    (∀ r, (r = requireRole allowedRoles cfg t now permLookup ∨
           r = requirePermission requiredPermission cfg t now permLookup) →
      ((r.error = none ∧ r.user.isSome = true) ∨
       r.error = some { status := 401, message := "Authentication required" } ∨
       r.error = some { status := 403, message := "Access denied" } ∨
       r.error = some { status := 500, message := "Internal server error" })) ∧
    (permLookup = .error () → ∀ u, getUserFromSession cfg t now = some u →
      requireRole allowedRoles cfg t now permLookup
        = { user := none
          , error := some { status := 500, message := "Internal server error" } } ∧
      requirePermission requiredPermission cfg t now permLookup
        = { user := none
          , error := some { status := 500, message := "Internal server error" } }) := by
  constructor
  · rintro r (rfl | rfl)
    · unfold requireRole
      cases getUserFromSession cfg t now with
      | none => simp [handleAuthorizationError]
      | some user =>
        cases permLookup with
        | error e => simp [handleAuthorizationError]
        | ok perms =>
          dsimp only
          split <;> simp [handleAuthorizationError]
    · unfold requirePermission
      cases getUserFromSession cfg t now with
      | none => simp [handleAuthorizationError]
      | some user =>
        cases permLookup with
        | error e => simp [handleAuthorizationError]
        | ok perms =>
          dsimp only
          split <;> simp [handleAuthorizationError]
  · rintro rfl u hu
    unfold requireRole requirePermission
    rw [hu]
    exact ⟨rfl, rfl⟩

/-- Witness for C4: a concrete valid token with a faulting permission
lookup yields the 500 outcome from both gate checks. -/
theorem C4_gate_witness :
    requireRole ["admin"] defaultSessionConfig
      (signToken ⟨"1", "alice", "a@example.com", "Alice", "sid1", 1000, 2800,
        1000, none, none⟩) 1000 (.error ())
      = { user := none
        , error := some { status := 500, message := "Internal server error" } } ∧
    requirePermission "manage_users" defaultSessionConfig
      (signToken ⟨"1", "alice", "a@example.com", "Alice", "sid1", 1000, 2800,
        1000, none, none⟩) 1000 (.error ())
      = { user := none
        , error := some { status := 500, message := "Internal server error" } } :=
  (C4_gate_four_outcomes defaultSessionConfig
    (signToken ⟨"1", "alice", "a@example.com", "Alice", "sid1", 1000, 2800,
      1000, none, none⟩) 1000 (.error ()) ["admin"] "manage_users").2 rfl
    ⟨"1", "alice", "a@example.com", "Alice", "sid1"⟩ (by decide)

/-- Claim C5: for a valid session, `requireRole allowedRoles` grants access
iff the role set derived from the resolved permissions intersects
`allowedRoles`, where the derived set contains `"admin"` iff
`"admin_access"` is among the permissions, `"manager"` iff
`"manage_users"` is, and always contains `"user"`; in particular
`requireRole ["admin"]` denies a user whose permission set is exactly
`{edit_profile}` and grants one whose permission set contains
`admin_access`. -/
theorem C5_role_from_permissions (allowedRoles : List String)
    (cfg : SessionConfig) (t : Token) (now : Int) (perms : List String)
    (u : SessionUser) (hu : getUserFromSession cfg t now = some u) :
    ((requireRole allowedRoles cfg t now (.ok perms)).error = none ↔
      ∃ role, role ∈ deriveUserRoles perms ∧ role ∈ allowedRoles) ∧
    ("admin" ∈ deriveUserRoles perms ↔ "admin_access" ∈ perms) ∧
    ("manager" ∈ deriveUserRoles perms ↔ "manage_users" ∈ perms) ∧
    "user" ∈ deriveUserRoles perms ∧
    (requireRole ["admin"] cfg t now (.ok ["edit_profile"])).error
      = some { status := 403, message := "Access denied" } ∧
    ("admin_access" ∈ perms →
      (requireRole ["admin"] cfg t now (.ok perms)).error = none) := by
  have hadmin : "admin" ∈ deriveUserRoles perms ↔ "admin_access" ∈ perms := by
    unfold deriveUserRoles
    by_cases h1 : perms.contains "admin_access" = true <;>
      by_cases h2 : perms.contains "manage_users" = true <;>
      simp_all
  have hmanager : "manager" ∈ deriveUserRoles perms ↔ "manage_users" ∈ perms := by
    unfold deriveUserRoles
    by_cases h1 : perms.contains "admin_access" = true <;>
      by_cases h2 : perms.contains "manage_users" = true <;>
      simp_all
  have huser : "user" ∈ deriveUserRoles perms := by
    unfold deriveUserRoles
    simp
  have hgrantIff : ∀ allowed : List String,
      (requireRole allowed cfg t now (.ok perms)).error = none ↔
        ∃ role, role ∈ deriveUserRoles perms ∧ role ∈ allowed := by
    intro allowed
    have hiff :
        ((deriveUserRoles perms).any (fun role => allowed.contains role) = true)
          ↔ ∃ role, role ∈ deriveUserRoles perms ∧ role ∈ allowed := by
      simp [List.any_eq_true]
    unfold requireRole
    rw [hu]
    dsimp only
    by_cases hany :
        (deriveUserRoles perms).any (fun role => allowed.contains role) = true
    · rw [if_pos hany]
      simpa using hiff.mp hany
    · rw [if_neg hany]
      constructor
      · intro h; simp at h
      · intro hex; exact absurd (hiff.mpr hex) hany
  refine ⟨hgrantIff allowedRoles, hadmin, hmanager, huser, ?_, ?_⟩
  · unfold requireRole
    rw [hu]
    rfl
  · intro hperm
    rw [hgrantIff ["admin"]]
    exact ⟨"admin", hadmin.mpr hperm, by simp⟩

/-- Witness for C5: a valid session whose permission set is exactly
`{edit_profile}` is denied by `requireRole ["admin"]`, and one containing
`admin_access` is granted. -/
theorem C5_role_witness :
    (requireRole ["admin"] defaultSessionConfig
      (signToken ⟨"1", "alice", "a@example.com", "Alice", "sid1", 1000, 2800,
        1000, none, none⟩) 1000 (.ok ["edit_profile"])).error
      = some { status := 403, message := "Access denied" } ∧
    (requireRole ["admin"] defaultSessionConfig
      (signToken ⟨"1", "alice", "a@example.com", "Alice", "sid1", 1000, 2800,
        1000, none, none⟩) 1000 (.ok ["admin_access"])).error = none :=
  ⟨(C5_role_from_permissions ["admin"] defaultSessionConfig
      (signToken ⟨"1", "alice", "a@example.com", "Alice", "sid1", 1000, 2800,
        1000, none, none⟩) 1000 ["edit_profile"]
      ⟨"1", "alice", "a@example.com", "Alice", "sid1"⟩ (by decide)).2.2.2.2.1,
   (C5_role_from_permissions ["admin"] defaultSessionConfig
      (signToken ⟨"1", "alice", "a@example.com", "Alice", "sid1", 1000, 2800,
        1000, none, none⟩) 1000 ["admin_access"]
      ⟨"1", "alice", "a@example.com", "Alice", "sid1"⟩ (by decide)).2.2.2.2.2
     (by decide)⟩

/-- Claim C9: `verifyPassword` with no stored hash still performs a bcrypt
comparison — against the fixed dummy hash — and returns false; a thrown
comparison is caught and yields false (the function is total, so nothing
ever propagates); and the result is true only when a truthy stored hash
is present and the password matches it. -/
theorem C9_verifyPassword_contract
    (compare : String → String → Except Unit Bool) (password : String)
    (hash : Option String) :
    ((verifyPassword compare password none).comparedHash = DUMMY_HASH ∧
     (verifyPassword compare password none).result = false) ∧
    (compare password
        (if jsFalsyStr hash then DUMMY_HASH else hash.getD "") = .error () →
      (verifyPassword compare password hash).result = false) ∧
    ((verifyPassword compare password hash).result = true →
      ∃ h, hash = some h ∧ h ≠ "" ∧ compare password h = .ok true) := by
  refine ⟨?_, ?_, ?_⟩
  · cases hc : compare password DUMMY_HASH with
    | error e => simp [verifyPassword, jsFalsyStr, hc]
    | ok v => simp [verifyPassword, jsFalsyStr, hc]
  · intro herr
    simp [verifyPassword, herr]
  · intro hres
    cases hash with
    | none =>
      exfalso
      cases hc : compare password DUMMY_HASH with
      | error e => simp [verifyPassword, jsFalsyStr, hc] at hres
      | ok v => simp [verifyPassword, jsFalsyStr, hc] at hres
    | some h =>
      by_cases h0 : h = ""
      · exfalso
        subst h0
        cases hc : compare password DUMMY_HASH with
        | error e => simp [verifyPassword, jsFalsyStr, hc] at hres
        | ok v => simp [verifyPassword, jsFalsyStr, hc] at hres
      · cases hc : compare password h with
        | error e => simp [verifyPassword, jsFalsyStr, h0, hc] at hres
        | ok v =>
          refine ⟨h, rfl, h0, ?_⟩
          rw [hc]
          simp [verifyPassword, jsFalsyStr, h0, hc] at hres
          rw [hres]
  
/-- Witness for C9: the dummy comparison on an absent hash, and a throwing
comparison on a present hash, both return false. -/
theorem C9_verifyPassword_witness :
    (verifyPassword (fun _ _ => Except.ok false) "pw" none).result = false ∧
    (verifyPassword (fun _ _ => Except.error ()) "pw"
      (some "$2b$12$hash")).result = false :=
  ⟨(C9_verifyPassword_contract (fun _ _ => Except.ok false) "pw" none).1.2,
   (C9_verifyPassword_contract (fun _ _ => Except.error ()) "pw"
      (some "$2b$12$hash")).2.1 rfl⟩

/-- Claim C2 as amended: the unknown-identifier and wrong-password failure
classes of the login route return the identical generic error message and
the identical 401 status, but they are not latency-indistinguishable: the
route performs no bcrypt comparison at all on an unknown identifier and
exactly one full-cost comparison on a wrong password (it calls
`bcrypt.compare` directly, only after a user row was found, and never the
timing-floored `verifyPassword` of the credential verifier). -/
theorem C2_login_message_invariance (b1 b2 : LoginRequestBody) (user : DbUser)
    (compare : String → String → Bool) (n1 n2 : Int) (s1 s2 : String)
    (h1u : jsFalsyStr b1.usernameOrEmail = false)
    (h1p : jsFalsyStr b1.password = false)
    (h2u : jsFalsyStr b2.usernameOrEmail = false)
    (h2p : jsFalsyStr b2.password = false)
    (hcmp : compare (b2.password.getD "") user.password_hash = false) :
    (loginPOST b1 (.ok none) compare n1 s1).1.status = 401 ∧
    (loginPOST b2 (.ok (some user)) compare n2 s2).1.status = 401 ∧
    (loginPOST b1 (.ok none) compare n1 s1).1.error
      = some "Invalid username/email or password" ∧
    (loginPOST b2 (.ok (some user)) compare n2 s2).1.error
      = (loginPOST b1 (.ok none) compare n1 s1).1.error ∧
    (loginPOST b1 (.ok none) compare n1 s1).2 = 0 ∧
    (loginPOST b2 (.ok (some user)) compare n2 s2).2 = 1 := by
  have r1 : loginPOST b1 (.ok none) compare n1 s1
      = ({ status := 401, error := some "Invalid username/email or password",
           message := none, sessionCookie := none }, 0) := by
    simp [loginPOST, h1u, h1p]
  have r2 : loginPOST b2 (.ok (some user)) compare n2 s2
      = ({ status := 401, error := some "Invalid username/email or password",
           message := none, sessionCookie := none }, 1) := by
    simp [loginPOST, h2u, h2p, hcmp]
  rw [r1, r2]
  exact ⟨rfl, rfl, rfl, rfl, rfl, rfl⟩

/-- Counterexample to claim C2 as stated: at concrete requests — one with
an identifier matching no stored user, one with a known user but a
failing hash comparison — the responses carry the same generic message
and status, yet the two classes are distinguishable by the number of
bcrypt comparisons performed (0 versus 1), refuting the claimed latency
indistinguishability of the login operation. -/
theorem C2_login_timing_counterexample :
    (loginPOST ⟨some "ghost", some "pw"⟩ (.ok none)
      (fun _ _ => false) 0 "s").1.status = 401 ∧
    (loginPOST ⟨some "alice", some "pw"⟩
      (.ok (some ⟨"1", "alice", "a@example.com", none, "storedhash"⟩))
      (fun _ _ => false) 0 "s").1.status = 401 ∧
    (loginPOST ⟨some "ghost", some "pw"⟩ (.ok none)
      (fun _ _ => false) 0 "s").1.error
      = (loginPOST ⟨some "alice", some "pw"⟩
          (.ok (some ⟨"1", "alice", "a@example.com", none, "storedhash"⟩))
          (fun _ _ => false) 0 "s").1.error ∧
    (loginPOST ⟨some "ghost", some "pw"⟩ (.ok none)
      (fun _ _ => false) 0 "s").2
      ≠ (loginPOST ⟨some "alice", some "pw"⟩
          (.ok (some ⟨"1", "alice", "a@example.com", none, "storedhash"⟩))
          (fun _ _ => false) 0 "s").2 := by
  refine ⟨rfl, rfl, rfl, ?_⟩
  decide

/-- Witness for the amended C2 at concrete requests. -/
theorem C2_login_witness :
    (loginPOST ⟨some "ghost", some "pw"⟩ (.ok none)
      (fun _ _ => false) 0 "s").2 = 0 ∧
    (loginPOST ⟨some "alice", some "pw"⟩
      (.ok (some ⟨"1", "alice", "a@example.com", none, "storedhash"⟩))
      (fun _ _ => false) 0 "s").2 = 1 :=
  ⟨(C2_login_message_invariance ⟨some "ghost", some "pw"⟩
      ⟨some "alice", some "pw"⟩ ⟨"1", "alice", "a@example.com", none, "storedhash"⟩
      (fun _ _ => false) 0 0 "s" "s" rfl rfl rfl rfl rfl).2.2.2.2.1,
   (C2_login_message_invariance ⟨some "ghost", some "pw"⟩
      ⟨some "alice", some "pw"⟩ ⟨"1", "alice", "a@example.com", none, "storedhash"⟩
      (fun _ _ => false) 0 0 "s" "s" rfl rfl rfl rfl rfl).2.2.2.2.2⟩
